import Mathlib

/-!
Verification of the contrast-validation core of the dream-purple-theme
repository (scripts/accessibility-validator.js, `AccessibilityValidator`).

The JavaScript source is shallowly embedded: hex parsing and the WCAG
threshold classification are computable Lean functions; the luminance /
contrast-ratio arithmetic, which the source performs on IEEE doubles, is
modelled over the real numbers (the ideal semantics of the formulas).
JavaScript `NaN` values, which arise because `parseInt` returns `NaN` on
non-numeric substrings and then propagate through the arithmetic, are
modelled with `Option`: `none` stands for `NaN` at every stage where the
source can produce one.
-/

namespace DreamPurple

/-- Hex value of a single character, mirroring which characters
`parseInt(s, 16)` accepts as digits: 0-9, a-f, A-F. -/
def hexDigitVal? (c : Char) : Option Nat :=
  if 48 ≤ c.toNat ∧ c.toNat ≤ 57 then some (c.toNat - 48)
  else if 97 ≤ c.toNat ∧ c.toNat ≤ 102 then some (c.toNat - 87)
  else if 65 ≤ c.toNat ∧ c.toNat ≤ 70 then some (c.toNat - 55)
  else none

/-- Longest run of hex digits at the front of the character list,
as a list of digit values. -/
def takeHexRun : List Char → List Nat
  | [] => []
  | c :: cs =>
    match hexDigitVal? c with
    | some d => d :: takeHexRun cs
    | none => []

/-- Value of a big-endian list of base-16 digits. -/
def hexRunValue (ds : List Nat) : Nat :=
  ds.foldl (fun acc d => 16 * acc + d) 0

/-- Body of JavaScript `parseInt(s, 16)` after whitespace and sign have been
consumed: an optional leading `0x`/`0X` is stripped, then the longest run of
hex digits is read; `none` models the `NaN` result when no digit is found. -/
def jsParseIntHexBody (sgn : Int) (l : List Char) : Option Int :=
  let l2 : List Char :=
    match l with
    | '0' :: 'x' :: rest => rest
    | '0' :: 'X' :: rest => rest
    | _ => l
  match takeHexRun l2 with
  | [] => none
  | ds => some (sgn * (hexRunValue ds : Int))

/-- JavaScript `parseInt(s, 16)` on a character list: leading whitespace is
skipped, an optional sign is read, then the hex body is parsed.  `none`
models `NaN`. -/
def jsParseIntHexL (l : List Char) : Option Int :=
  match l.dropWhile Char.isWhitespace with
  | '-' :: rest => jsParseIntHexBody (-1) rest
  | '+' :: rest => jsParseIntHexBody 1 rest
  | l1 => jsParseIntHexBody 1 l1

/-- Result object of `hexToRgb`: each colour channel is the result of a
`parseInt` call, so a channel is `none` when the source would hold `NaN`.
The alpha channel is already divided by 255 in the source. -/
structure Rgb where
  r : Option Int
  g : Option Int
  b : Option Int
  a : Option ℚ
deriving DecidableEq, Repr

/-- The source's `hex.replace(/^#/, '')`: strip one leading hash. -/
def stripHash (l : List Char) : List Char :=
  match l with
  | [] => []
  | c :: rest => if c = '#' then rest else c :: rest

/-- Branches of `AccessibilityValidator.hexToRgb` after the hash has been
stripped.  The source checks only the length of the remaining string:
length 8 is read as RGBA, 6 as RGB, 3 as short RGB with each digit doubled,
and anything else returns `null` (here `none`).  `hex.substr(i, 2)` is
`(drop i).take 2` and `hex[i]` is `getD i`. -/
def hexToRgbCore (hex : List Char) : Option Rgb :=
  if hex.length = 8 then
    some { r := jsParseIntHexL (hex.take 2)
         , g := jsParseIntHexL ((hex.drop 2).take 2)
         , b := jsParseIntHexL ((hex.drop 4).take 2)
         , a := (jsParseIntHexL ((hex.drop 6).take 2)).map (fun v => (v : ℚ) / 255) }
  else if hex.length = 6 then
    some { r := jsParseIntHexL (hex.take 2)
         , g := jsParseIntHexL ((hex.drop 2).take 2)
         , b := jsParseIntHexL ((hex.drop 4).take 2)
         , a := some 1 }
  else if hex.length = 3 then
    some { r := jsParseIntHexL [hex.getD 0 ' ', hex.getD 0 ' ']
         , g := jsParseIntHexL [hex.getD 1 ' ', hex.getD 1 ' ']
         , b := jsParseIntHexL [hex.getD 2 ' ', hex.getD 2 ' ']
         , a := some 1 }
  else
    none

/-- Source `AccessibilityValidator.hexToRgb` on a character list: strip the
optional leading hash, then dispatch on the length. -/
def hexToRgbL (hex0 : List Char) : Option Rgb :=
  hexToRgbCore (stripHash hex0)

/-- Source `AccessibilityValidator.hexToRgb` on a string. -/
def hexToRgb (s : String) : Option Rgb :=
  hexToRgbL s.data

/-- Lookup in `WCAG_STANDARDS.AA`; `none` models the JavaScript `undefined`
obtained for a key outside the table. -/
def WCAG_AA : String → Option ℚ
  | "normalText" => some 4.5
  | "largeText" => some 3.0
  | "uiComponents" => some 3.0
  | "graphicalObjects" => some 3.0
  | _ => none

/-- Lookup in `WCAG_STANDARDS.AAA`; `none` models `undefined`. -/
def WCAG_AAA : String → Option ℚ
  | "normalText" => some 7.0
  | "largeText" => some 4.5
  | "uiComponents" => some 4.5
  | "graphicalObjects" => some 4.5
  | _ => none

/-- JavaScript `x < y` where `y` may be `undefined`: comparing a number with
`undefined` coerces `undefined` to `NaN`, and every comparison with `NaN` is
`false`. -/
def jsLtOpt (x : ℚ) (y : Option ℚ) : Bool :=
  match y with
  | some v => decide (x < v)
  | none => false

/-- The three buckets `validateContrastPair` sorts a pair into. -/
inductive ContrastOutcome
  | violation
  | warning
  | pass
deriving DecidableEq, Repr

/-- Classification branch of `AccessibilityValidator.validateContrastPair`:
`if (ratio < requiredAA)` push a violation, `else if (ratio < requiredAAA)`
push a warning, else push a pass, with the thresholds looked up by the
string key `pair.type`. -/
def validateContrastOutcome (ratio : ℚ) (catType : String) : ContrastOutcome :=
  if jsLtOpt ratio (WCAG_AA catType) then ContrastOutcome.violation
  else if jsLtOpt ratio (WCAG_AAA catType) then ContrastOutcome.warning
  else ContrastOutcome.pass

/-- Spec-level `ContrastResult` booleans, read off the outcome of
`validateContrastPair`: the pair meets AA exactly when it is not pushed as a
violation, and meets AAA exactly when it is pushed as a pass. -/
structure ContrastResult where
  meetsAA : Bool
  meetsAAA : Bool
deriving DecidableEq, Repr

/-- The spec's `classify(ratio, requirement)` derived from the branch
structure of `validateContrastPair`. -/
def classify (ratio : ℚ) (catType : String) : ContrastResult :=
  { meetsAA := decide (validateContrastOutcome ratio catType ≠ ContrastOutcome.violation)
  , meetsAAA := decide (validateContrastOutcome ratio catType = ContrastOutcome.pass) }

/-- Linearization of one 8-bit channel inside
`AccessibilityValidator.getRelativeLuminance`: `c = c / 255;
return c <= 0.03928 ? c / 12.92 : Math.pow((c + 0.055) / 1.055, 2.4)`.
The branch condition is decided over `ℚ` (it compares two exact decimal
values), the arithmetic is carried out over `ℝ`. -/
noncomputable def linearizeChannel (c : Int) : ℝ :=
  if (c : ℚ) / 255 ≤ 0.03928 then (c : ℝ) / 255 / 12.92
  else (((c : ℝ) / 255 + 0.055) / 1.055) ^ (2.4 : ℝ)

/-- Source `AccessibilityValidator.getRelativeLuminance` on the three channel
values: `0.2126 * rs + 0.7152 * gs + 0.0722 * bs`. -/
noncomputable def getRelativeLuminance (r g b : Int) : ℝ :=
  0.2126 * linearizeChannel r + 0.7152 * linearizeChannel g + 0.0722 * linearizeChannel b

/-- Luminance of a parsed `Rgb` object.  When any channel is `NaN`
(`none`), the source's arithmetic yields `NaN`, modelled as `none`. -/
noncomputable def luminanceOfRgb (c : Rgb) : Option ℝ :=
  match c.r, c.g, c.b with
  | some r, some g, some b => some (getRelativeLuminance r g b)
  | _, _, _ => none

/-- Source `AccessibilityValidator.calculateContrastRatio(color1, color2)`:
parse both strings; `if (!rgb1 || !rgb2) return 0`; otherwise
`(brightest + 0.05) / (darkest + 0.05)` on the two luminances.  A `NaN`
channel makes the luminance, the `Math.max`/`Math.min`, and the final
quotient `NaN`, modelled as `none`. -/
noncomputable def calculateContrastRatio (color1 color2 : String) : Option ℝ :=
  match hexToRgb color1, hexToRgb color2 with
  | some rgb1, some rgb2 =>
    match luminanceOfRgb rgb1, luminanceOfRgb rgb2 with
    | some lum1, some lum2 => some ((max lum1 lum2 + 0.05) / (min lum1 lum2 + 0.05))
    | _, _ => none
  | _, _ => some 0

/-- Data-model `Color` of the spec: an 8-bit-per-channel RGB triple. -/
structure Color where
  r : Int
  g : Int
  b : Int
deriving DecidableEq, Repr

/-- Validity invariant of the data model: each channel lies in [0, 255]. -/
def Color.Valid (c : Color) : Prop :=
  0 ≤ c.r ∧ c.r ≤ 255 ∧ 0 ≤ c.g ∧ c.g ≤ 255 ∧ 0 ≤ c.b ∧ c.b ≤ 255

instance (c : Color) : Decidable c.Valid := by
  unfold Color.Valid; infer_instance

/-- Engine-level `relativeLuminance` on a `Color`, the post-parse part of
the source computation. -/
noncomputable def relativeLuminance (c : Color) : ℝ :=
  getRelativeLuminance c.r c.g c.b

/-- Engine-level `contrastRatio` on two `Color`s: the exact expression
`(brightest + 0.05) / (darkest + 0.05)` computed by
`calculateContrastRatio` once both parses succeed. -/
noncomputable def contrastRatio (a b : Color) : ℝ :=
  (max (relativeLuminance a) (relativeLuminance b) + 0.05) /
    (min (relativeLuminance a) (relativeLuminance b) + 0.05)

/-- A 3x3 colour-blindness simulation matrix, row major. -/
structure Mat3 where
  m00 : ℚ
  m01 : ℚ
  m02 : ℚ
  m10 : ℚ
  m11 : ℚ
  m12 : ℚ
  m20 : ℚ
  m21 : ℚ
  m22 : ℚ
deriving DecidableEq, Repr

/-- Matrix `COLOR_BLINDNESS_MATRICES.protanopia`. -/
def protanopia : Mat3 :=
  ⟨0.567, 0.433, 0.000, 0.558, 0.442, 0.000, 0.000, 0.242, 0.758⟩

/-- Matrix `COLOR_BLINDNESS_MATRICES.deuteranopia`. -/
def deuteranopia : Mat3 :=
  ⟨0.625, 0.375, 0.000, 0.700, 0.300, 0.000, 0.000, 0.300, 0.700⟩

/-- Matrix `COLOR_BLINDNESS_MATRICES.tritanopia`. -/
def tritanopia : Mat3 :=
  ⟨0.950, 0.050, 0.000, 0.000, 0.433, 0.567, 0.000, 0.475, 0.525⟩

/-- JavaScript `Math.round`: round half toward positive infinity. -/
def jsRound (q : ℚ) : Int :=
  Int.floor (q + 1 / 2)

/-- Lowercase hex digit character of `n < 16`, as produced by
`Number.prototype.toString(16)`. -/
def toHexChar (n : Nat) : Char :=
  if n < 10 then Char.ofNat (48 + n) else Char.ofNat (87 + n)

/-- Rendering `v.toString(16).padStart(2, '0')` for a channel value `v` in [0, 255],
the only range the simulation can produce from in-range channels (every
matrix row sums to 1). -/
def toHex2 (v : Int) : List Char :=
  [toHexChar (v.toNat / 16), toHexChar (v.toNat % 16)]

/-- Source `AccessibilityValidator.simulateColorBlindness(hexColor, matrix)`:
parse the colour (returning the input string unchanged when the parse gives
`null`), apply the matrix row by row with `Math.round`, and format back to
`#rrggbb`.  When a channel is `NaN`, `Math.round(NaN)` is `NaN` and
`NaN.toString(16)` is the string `"NaN"`, so the source returns the literal
string `#NaNNaNNaN`. -/
def simulateColorBlindness (hexColor : String) (matrix : Mat3) : String :=
  match hexToRgb hexColor with
  | none => hexColor
  | some rgb =>
    match rgb.r, rgb.g, rgb.b with
    | some r, some g, some b =>
      let newR := jsRound ((r : ℚ) * matrix.m00 + (g : ℚ) * matrix.m01 + (b : ℚ) * matrix.m02)
      let newG := jsRound ((r : ℚ) * matrix.m10 + (g : ℚ) * matrix.m11 + (b : ℚ) * matrix.m12)
      let newB := jsRound ((r : ℚ) * matrix.m20 + (g : ℚ) * matrix.m21 + (b : ℚ) * matrix.m22)
      String.mk ('#' :: (toHex2 newR ++ toHex2 newG ++ toHex2 newB))
    | _, _, _ => "#NaNNaNNaN"

/-- Source `AccessibilityValidator.calculateColorDifference(color1, color2)`:
Euclidean distance in RGB space, `0` when either parse gives `null`,
`NaN` (`none`) when a parsed channel is `NaN`. -/
noncomputable def calculateColorDifference (color1 color2 : String) : Option ℝ :=
  match hexToRgb color1, hexToRgb color2 with
  | some rgb1, some rgb2 =>
    match rgb1.r, rgb1.g, rgb1.b, rgb2.r, rgb2.g, rgb2.b with
    | some r1, some g1, some b1, some r2, some g2, some b2 =>
      some (Real.sqrt (((r1 - r2 : Int) : ℝ) ^ 2 + ((g1 - g2 : Int) : ℝ) ^ 2 +
        ((b1 - b2 : Int) : ℝ) ^ 2))
    | _, _, _, _, _, _ => none
  | _, _ => some 0

/-- The spec's `estimateColorBlindnessSeparation`: the `reductionRatio`
computed inside `AccessibilityValidator.validateColorBlindnessType`,
`simulatedDiff / originalDiff`, where both differences are
`calculateColorDifference` and the simulated colours come from
`simulateColorBlindness`. -/
noncomputable def estimateColorBlindnessSeparation (color1 color2 : String) (matrix : Mat3) :
    Option ℝ :=
  match calculateColorDifference (simulateColorBlindness color1 matrix)
      (simulateColorBlindness color2 matrix),
    calculateColorDifference color1 color2 with
  | some simulatedDiff, some originalDiff => some (simulatedDiff / originalDiff)
  | _, _ => none

/-- A ratio meets a WCAG level for a category when the table has an entry
for the category and the ratio is at least that entry. -/
def MeetsLevel (table : String → Option ℚ) (ratio : ℝ) (catType : String) : Prop :=
  ∃ q, table catType = some q ∧ (q : ℝ) ≤ ratio

end DreamPurple

namespace DreamPurple

lemma rpow24_sq5 (x : ℝ) (hx : 0 ≤ x) : (x ^ (2.4 : ℝ)) ^ (5 : ℕ) = x ^ (12 : ℕ) := by
  rw [← Real.rpow_natCast (x ^ (2.4 : ℝ)) 5, ← Real.rpow_mul hx, ← Real.rpow_natCast x 12]
  norm_num

lemma le_rpow24 (x l : ℝ) (hx : 0 ≤ x) (_hl : 0 ≤ l) (h : l ^ (5 : ℕ) ≤ x ^ (12 : ℕ)) :
    l ≤ x ^ (2.4 : ℝ) := by
  have hy : 0 ≤ x ^ (2.4 : ℝ) := Real.rpow_nonneg hx _
  have h5 : l ^ (5 : ℕ) ≤ (x ^ (2.4 : ℝ)) ^ (5 : ℕ) := by
    rw [rpow24_sq5 x hx]
    exact h
  exact le_of_pow_le_pow_left₀ (by norm_num) hy h5

lemma rpow24_le (x u : ℝ) (hx : 0 ≤ x) (hu : 0 ≤ u) (h : x ^ (12 : ℕ) ≤ u ^ (5 : ℕ)) :
    x ^ (2.4 : ℝ) ≤ u := by
  have h5 : (x ^ (2.4 : ℝ)) ^ (5 : ℕ) ≤ u ^ (5 : ℕ) := by
    rw [rpow24_sq5 x hx]
    exact h
  exact le_of_pow_le_pow_left₀ (by norm_num) hu h5

lemma linearizeChannel_nonneg {c : Int} (hc : 0 ≤ c) : 0 ≤ linearizeChannel c := by
  unfold linearizeChannel
  have hcR : (0 : ℝ) ≤ (c : ℝ) := by exact_mod_cast hc
  have h255 : (0 : ℝ) ≤ (c : ℝ) / 255 := div_nonneg hcR (by norm_num)
  split_ifs with h
  · exact div_nonneg h255 (by norm_num)
  · exact Real.rpow_nonneg (div_nonneg (by linarith) (by norm_num)) _

lemma linearizeChannel_le_one {c : Int} (hc : c ≤ 255) : linearizeChannel c ≤ 1 := by
  unfold linearizeChannel
  have hcR : (c : ℝ) ≤ 255 := by exact_mod_cast hc
  have hdiv : (c : ℝ) / 255 ≤ 1 := by
    rw [div_le_one (by norm_num)]
    linarith
  split_ifs with h
  · rify at h
    rw [div_le_one (by norm_num : (0 : ℝ) < 12.92)]
    linarith
  · rw [not_le] at h
    rify at h
    apply Real.rpow_le_one
    · apply div_nonneg _ (by norm_num)
      linarith
    · rw [div_le_one (by norm_num)]
      linarith
    · norm_num

lemma getRelativeLuminance_nonneg {r g b : Int} (hr : 0 ≤ r) (hg : 0 ≤ g) (hb : 0 ≤ b) :
    0 ≤ getRelativeLuminance r g b := by
  unfold getRelativeLuminance
  have h1 := linearizeChannel_nonneg hr
  have h2 := linearizeChannel_nonneg hg
  have h3 := linearizeChannel_nonneg hb
  linarith

lemma getRelativeLuminance_le_one {r g b : Int} (hr : r ≤ 255) (hg : g ≤ 255) (hb : b ≤ 255) :
    getRelativeLuminance r g b ≤ 1 := by
  unfold getRelativeLuminance
  have h1 := linearizeChannel_le_one hr
  have h2 := linearizeChannel_le_one hg
  have h3 := linearizeChannel_le_one hb
  linarith

lemma linearizeChannel_zero : linearizeChannel 0 = 0 := by
  unfold linearizeChannel
  rw [if_pos (by norm_num)]
  norm_num

lemma linearizeChannel_255 : linearizeChannel 255 = 1 := by
  unfold linearizeChannel
  rw [if_neg (by norm_num)]
  have h : (((255 : Int) : ℝ) / 255 + 0.055) / 1.055 = 1 := by
    push_cast
    norm_num
  rw [h, Real.one_rpow]

lemma relativeLuminance_white : relativeLuminance ⟨255, 255, 255⟩ = 1 := by
  unfold relativeLuminance getRelativeLuminance
  rw [linearizeChannel_255]
  norm_num

lemma relativeLuminance_black : relativeLuminance ⟨0, 0, 0⟩ = 0 := by
  unfold relativeLuminance getRelativeLuminance
  rw [linearizeChannel_zero]
  norm_num

lemma ratio_formula_bounds {l1 l2 : ℝ} (h1 : 0 ≤ l1) (h1' : l1 ≤ 1) (h2 : 0 ≤ l2)
    (h2' : l2 ≤ 1) :
    1 ≤ (max l1 l2 + 0.05) / (min l1 l2 + 0.05) ∧
      (max l1 l2 + 0.05) / (min l1 l2 + 0.05) ≤ 21 := by
  have hmin : 0 ≤ min l1 l2 := le_min h1 h2
  have hmax : max l1 l2 ≤ 1 := max_le h1' h2'
  have hmm : min l1 l2 ≤ max l1 l2 := min_le_max
  have hden : (0 : ℝ) < min l1 l2 + 0.05 := by linarith
  constructor
  · rw [le_div_iff₀ hden]
    linarith
  · rw [div_le_iff₀ hden]
    linarith

/-- C1: `relativeLuminance` implements the exact WCAG sRGB transform: each
channel value `v` is normalized to `v/255`, linearized as `(v/255)/12.92`
when `v/255 ≤ 0.03928` and as `((v/255 + 0.055)/1.055)^2.4` otherwise, and
the luminance is the weighted sum with coefficients 0.2126, 0.7152, 0.0722;
in particular the luminance of `#FFFFFF` is 1.0 and that of `#000000` is
0.0. -/
theorem relativeLuminance_wcag_c1 :
    (∀ v : Int,
      ((v : ℚ) / 255 ≤ 0.03928 → linearizeChannel v = (v : ℝ) / 255 / 12.92) ∧
      (¬ ((v : ℚ) / 255 ≤ 0.03928) →
        linearizeChannel v = (((v : ℝ) / 255 + 0.055) / 1.055) ^ (2.4 : ℝ))) ∧
    (∀ r g b : Int, getRelativeLuminance r g b =
      0.2126 * linearizeChannel r + 0.7152 * linearizeChannel g +
        0.0722 * linearizeChannel b) ∧
    relativeLuminance ⟨255, 255, 255⟩ = 1 ∧ relativeLuminance ⟨0, 0, 0⟩ = 0 := by
  refine ⟨fun v => ⟨fun h => ?_, fun h => ?_⟩, fun r g b => rfl,
    relativeLuminance_white, relativeLuminance_black⟩
  · unfold linearizeChannel
    exact if_pos h
  · unfold linearizeChannel
    exact if_neg h

/-- C1 witness: the theorem instantiated at the concrete channel values 5
(low branch) and 255 (power branch), and at pure white. -/
theorem relativeLuminance_wcag_witness_c1 :
    linearizeChannel 5 = ((5 : Int) : ℝ) / 255 / 12.92 ∧
    linearizeChannel 255 = ((((255 : Int) : ℝ) / 255 + 0.055) / 1.055) ^ (2.4 : ℝ) ∧
    relativeLuminance ⟨255, 255, 255⟩ = 1 :=
  ⟨(relativeLuminance_wcag_c1.1 5).1 (by norm_num),
   (relativeLuminance_wcag_c1.1 255).2 (by norm_num),
   relativeLuminance_wcag_c1.2.2.1⟩

/-- C2: for all valid Colors the contrast ratio lies in [1, 21]; it is 1
when the colors share a luminance, and exactly 21 for pure black against
pure white. -/
theorem contrastRatio_range_c2 (a b : Color) (ha : a.Valid) (hb : b.Valid) :
    (1 ≤ contrastRatio a b ∧ contrastRatio a b ≤ 21) ∧
    (relativeLuminance a = relativeLuminance b → contrastRatio a b = 1) ∧
    contrastRatio ⟨0, 0, 0⟩ ⟨255, 255, 255⟩ = 21 := by
  obtain ⟨ha1, ha2, ha3, ha4, ha5, ha6⟩ := ha
  obtain ⟨hb1, hb2, hb3, hb4, hb5, hb6⟩ := hb
  have hLa1 : 0 ≤ relativeLuminance a := getRelativeLuminance_nonneg ha1 ha3 ha5
  have hLa2 : relativeLuminance a ≤ 1 := getRelativeLuminance_le_one ha2 ha4 ha6
  have hLb1 : 0 ≤ relativeLuminance b := getRelativeLuminance_nonneg hb1 hb3 hb5
  have hLb2 : relativeLuminance b ≤ 1 := getRelativeLuminance_le_one hb2 hb4 hb6
  refine ⟨ratio_formula_bounds hLa1 hLa2 hLb1 hLb2, fun he => ?_, ?_⟩
  · unfold contrastRatio
    rw [he, max_self, min_self]
    have hpos : (0 : ℝ) < relativeLuminance b + 0.05 := by linarith
    exact div_self (ne_of_gt hpos)
  · unfold contrastRatio
    rw [relativeLuminance_black, relativeLuminance_white,
      max_eq_right (by norm_num : (0 : ℝ) ≤ 1), min_eq_left (by norm_num : (0 : ℝ) ≤ 1)]
    norm_num

/-- C2 witness: the theorem applied at pure black and pure white, and at a
pair sharing a luminance. -/
theorem contrastRatio_range_witness_c2 :
    (1 ≤ contrastRatio ⟨0, 0, 0⟩ ⟨255, 255, 255⟩ ∧
      contrastRatio ⟨0, 0, 0⟩ ⟨255, 255, 255⟩ ≤ 21) ∧
    contrastRatio ⟨0, 0, 0⟩ ⟨0, 0, 0⟩ = 1 ∧
    contrastRatio ⟨0, 0, 0⟩ ⟨255, 255, 255⟩ = 21 :=
  ⟨(contrastRatio_range_c2 ⟨0, 0, 0⟩ ⟨255, 255, 255⟩ (by decide) (by decide)).1,
   (contrastRatio_range_c2 ⟨0, 0, 0⟩ ⟨0, 0, 0⟩ (by decide) (by decide)).2.1 rfl,
   (contrastRatio_range_c2 ⟨0, 0, 0⟩ ⟨255, 255, 255⟩ (by decide) (by decide)).2.2⟩

lemma classify_eval (r aa aaa : ℚ) (catType : String) (hAA : WCAG_AA catType = some aa)
    (hAAA : WCAG_AAA catType = some aaa) (hle : aa ≤ aaa) :
    ((classify r catType).meetsAA = true ↔ aa ≤ r) ∧
      ((classify r catType).meetsAAA = true ↔ aaa ≤ r) := by
  unfold classify validateContrastOutcome jsLtOpt
  rw [hAA, hAAA]
  rcases lt_or_le r aa with h1 | h1 <;> rcases lt_or_le r aaa with h2 | h2 <;>
      simp [h1, h2, not_lt.mpr, le_of_lt] <;>
    linarith

/-- C5: `classify` compares the unrounded ratio inclusively against the
category thresholds: `meetsAA` holds exactly when the ratio is at least the
AA minimum and `meetsAAA` exactly when it is at least the AAA minimum, for
each of the four categories; in particular `classify 4.5 "normalText"`
meets AA while `classify 4.49999 "normalText"` does not. -/
theorem classify_thresholds_c5 : ∀ r : ℚ,
    ((classify r "normalText").meetsAA = true ↔ 4.5 ≤ r) ∧
    ((classify r "normalText").meetsAAA = true ↔ 7.0 ≤ r) ∧
    ((classify r "largeText").meetsAA = true ↔ 3.0 ≤ r) ∧
    ((classify r "largeText").meetsAAA = true ↔ 4.5 ≤ r) ∧
    ((classify r "uiComponents").meetsAA = true ↔ 3.0 ≤ r) ∧
    ((classify r "uiComponents").meetsAAA = true ↔ 4.5 ≤ r) ∧
    ((classify r "graphicalObjects").meetsAA = true ↔ 3.0 ≤ r) ∧
    ((classify r "graphicalObjects").meetsAAA = true ↔ 4.5 ≤ r) ∧
    (classify 4.5 "normalText").meetsAA = true ∧
    (classify (4.49999 : ℚ) "normalText").meetsAA = false := by
  intro r
  have h1 := classify_eval r 4.5 7.0 "normalText" rfl rfl (by norm_num)
  have h2 := classify_eval r 3.0 4.5 "largeText" rfl rfl (by norm_num)
  have h3 := classify_eval r 3.0 4.5 "uiComponents" rfl rfl (by norm_num)
  have h4 := classify_eval r 3.0 4.5 "graphicalObjects" rfl rfl (by norm_num)
  have hc1 : (classify (4.5 : ℚ) "normalText").meetsAA = true :=
    (classify_eval 4.5 4.5 7.0 "normalText" rfl rfl (by norm_num)).1.mpr le_rfl
  have hc2 : (classify (4.49999 : ℚ) "normalText").meetsAA = false := by
    have hiff := (classify_eval 4.49999 4.5 7.0 "normalText" rfl rfl (by norm_num)).1
    refine Bool.eq_false_iff.mpr fun hb => ?_
    have := hiff.mp hb
    norm_num at this
  exact ⟨h1.1, h1.2, h2.1, h2.2, h3.1, h3.2, h4.1, h4.2, hc1, hc2⟩

/-- C6: `calculateContrastRatio` is symmetric in its two colour-string
arguments. -/
theorem contrastRatio_symm_c6 (color1 color2 : String) :
    calculateContrastRatio color1 color2 = calculateContrastRatio color2 color1 := by
  cases h1 : hexToRgb color1 <;> cases h2 : hexToRgb color2 <;>
    simp only [calculateContrastRatio, h1, h2]
  case some.some rgb1 rgb2 =>
    cases l1 : luminanceOfRgb rgb1 <;> cases l2 : luminanceOfRgb rgb2 <;> simp only []
    case some.some lum1 lum2 =>
      rw [max_comm, min_comm]

/-- C4 counterexample: the six-character non-hex input "zzzzzz" is not
rejected; `hexToRgb` returns a colour object whose channels are all `NaN`,
refuting the claim that every input containing a non-hex character fails
with a parse error. -/
theorem hexToRgb_nonhex_counterexample_c4 :
    hexToRgb "zzzzzz" = some { r := none, g := none, b := none, a := some 1 } := by
  decide

/-- C4 (amended): `hexToRgb` fails exactly when the input, after stripping
an optional leading hash, does not have length 3, 6 or 8; hex-digit
validity is not checked.  In particular "not-a-color" and "" both fail. -/
theorem hexToRgb_length_only_c4 :
    (∀ s : String, hexToRgb s = none ↔
      ¬ ((stripHash s.data).length = 3 ∨ (stripHash s.data).length = 6 ∨
        (stripHash s.data).length = 8)) ∧
    hexToRgb "not-a-color" = none ∧ hexToRgb "" = none := by
  refine ⟨fun s => ?_, by decide, by decide⟩
  show hexToRgbCore (stripHash s.data) = none ↔ _
  unfold hexToRgbCore
  split_ifs with h8 h6 h3 <;> simp_all

/-- C7: parsing a three-digit short hex string gives the same colour as
parsing its six-digit expansion in which every digit is doubled, both with
and without the leading hash; in particular "#abc" parses like "#aabbcc". -/
theorem shortHex_expansion_c7 :
    (∀ c1 c2 c3 : Char,
      hexToRgb (String.mk ['#', c1, c2, c3]) =
        hexToRgb (String.mk ['#', c1, c1, c2, c2, c3, c3]) ∧
      hexToRgb (String.mk [c1, c2, c3]) =
        hexToRgb (String.mk [c1, c1, c2, c2, c3, c3])) ∧
    hexToRgb "#abc" = hexToRgb "#aabbcc" := by
  refine ⟨fun c1 c2 c3 => ⟨rfl, ?_⟩, by decide⟩
  by_cases hc : c1 = '#'
  · subst hc
    rfl
  · have h1 : stripHash (c1 :: [c2, c3]) = c1 :: [c2, c3] := by
      simp [stripHash, hc]
    have h2 : stripHash (c1 :: [c1, c2, c2, c3, c3]) = c1 :: [c1, c2, c2, c3, c3] := by
      simp [stripHash, hc]
    show hexToRgbCore (stripHash (c1 :: [c2, c3])) =
      hexToRgbCore (stripHash (c1 :: [c1, c2, c2, c3, c3]))
    rw [h1, h2]
    rfl

/-- C9 counterexample: for a requirement category outside the table, the
engine does not surface any error; even a ratio of 0, which would violate
every real category, is pushed as a pass. -/
theorem unknownCategory_pass_counterexample_c9 :
    validateContrastOutcome 0 "unknownCategory" = ContrastOutcome.pass := by
  decide

/-- C9 (amended): for a requirement category with no entry in the AA and
AAA tables, both `undefined` comparisons are false, so
`validateContrastPair` silently records the pair as a pass for every ratio
instead of surfacing a configuration error. -/
theorem unknownCategory_pass_amended_c9 (ratio : ℚ) (catType : String)
    (hAA : WCAG_AA catType = none) (hAAA : WCAG_AAA catType = none) :
    validateContrastOutcome ratio catType = ContrastOutcome.pass := by
  unfold validateContrastOutcome jsLtOpt
  rw [hAA, hAAA]
  rfl

/-- C9 witness: the amended theorem applied at ratio 0 and the unknown
category "bogus". -/
theorem unknownCategory_pass_witness_c9 :
    validateContrastOutcome 0 "bogus" = ContrastOutcome.pass :=
  unknownCategory_pass_amended_c9 0 "bogus" rfl rfl

/-- C10: when either input string fails to parse, `calculateContrastRatio`
returns 0 instead of raising an error, a value below the documented lower
bound 1 of the contrast range; in particular for "not-a-color". -/
theorem parse_failure_zero_c10 :
    (∀ s t : String, hexToRgb s = none →
      calculateContrastRatio s t = some 0 ∧ calculateContrastRatio t s = some 0) ∧
    calculateContrastRatio "not-a-color" "#f4f1f4" = some 0 ∧ ¬ ((1 : ℝ) ≤ 0) := by
  refine ⟨fun s t h => ⟨?_, ?_⟩, ?_, by norm_num⟩
  · simp only [calculateContrastRatio, h]
  · cases h2 : hexToRgb t <;> simp only [calculateContrastRatio, h, h2]
  · have h : hexToRgb "not-a-color" = none := by decide
    simp only [calculateContrastRatio, h]

lemma lin26_bounds :
    (0.0103296 : ℝ) ≤ linearizeChannel 26 ∧ linearizeChannel 26 ≤ 0.0103300 := by
  unfold linearizeChannel
  rw [if_neg (by norm_num)]
  exact ⟨le_rpow24 _ _ (by norm_num) (by norm_num) (by norm_num),
    rpow24_le _ _ (by norm_num) (by norm_num) (by norm_num)⟩

lemma lin13_bounds :
    (0.0040245 : ℝ) ≤ linearizeChannel 13 ∧ linearizeChannel 13 ≤ 0.0040249 := by
  unfold linearizeChannel
  rw [if_neg (by norm_num)]
  exact ⟨le_rpow24 _ _ (by norm_num) (by norm_num) (by norm_num),
    rpow24_le _ _ (by norm_num) (by norm_num) (by norm_num)⟩

lemma lin38_bounds :
    (0.0193821 : ℝ) ≤ linearizeChannel 38 ∧ linearizeChannel 38 ≤ 0.0193825 := by
  unfold linearizeChannel
  rw [if_neg (by norm_num)]
  exact ⟨le_rpow24 _ _ (by norm_num) (by norm_num) (by norm_num),
    rpow24_le _ _ (by norm_num) (by norm_num) (by norm_num)⟩

lemma lin244_bounds :
    (0.9046609 : ℝ) ≤ linearizeChannel 244 ∧ linearizeChannel 244 ≤ 0.9046613 := by
  unfold linearizeChannel
  rw [if_neg (by norm_num)]
  exact ⟨le_rpow24 _ _ (by norm_num) (by norm_num) (by norm_num),
    rpow24_le _ _ (by norm_num) (by norm_num) (by norm_num)⟩

lemma lin241_bounds :
    (0.8796221 : ℝ) ≤ linearizeChannel 241 ∧ linearizeChannel 241 ≤ 0.8796225 := by
  unfold linearizeChannel
  rw [if_neg (by norm_num)]
  exact ⟨le_rpow24 _ _ (by norm_num) (by norm_num) (by norm_num),
    rpow24_le _ _ (by norm_num) (by norm_num) (by norm_num)⟩

lemma lum_bg_bounds :
    (0.0064737 : ℝ) ≤ getRelativeLuminance 26 13 38 ∧
      getRelativeLuminance 26 13 38 ≤ 0.0064742 := by
  obtain ⟨a1, b1⟩ := lin26_bounds
  obtain ⟨a2, b2⟩ := lin13_bounds
  obtain ⟨a3, b3⟩ := lin38_bounds
  unfold getRelativeLuminance
  constructor <;> linarith

lemma lum_fg_bounds :
    (0.8867531 : ℝ) ≤ getRelativeLuminance 244 241 244 ∧
      getRelativeLuminance 244 241 244 ≤ 0.8867536 := by
  obtain ⟨a1, b1⟩ := lin244_bounds
  obtain ⟨a2, b2⟩ := lin241_bounds
  unfold getRelativeLuminance
  constructor <;> linarith

lemma editorPair_eval :
    calculateContrastRatio "#1a0d26" "#f4f1f4" =
      some ((max (getRelativeLuminance 26 13 38) (getRelativeLuminance 244 241 244) + 0.05) /
        (min (getRelativeLuminance 26 13 38) (getRelativeLuminance 244 241 244) + 0.05)) :=
  rfl

lemma editorPair_ratio_bounds :
    ∃ r : ℝ, calculateContrastRatio "#1a0d26" "#f4f1f4" = some r ∧ 16.5 ≤ r ∧ r ≤ 16.7 := by
  obtain ⟨hbl, hbu⟩ := lum_bg_bounds
  obtain ⟨hfl, hfu⟩ := lum_fg_bounds
  have hmax : max (getRelativeLuminance 26 13 38) (getRelativeLuminance 244 241 244) =
      getRelativeLuminance 244 241 244 := max_eq_right (by linarith)
  have hmin : min (getRelativeLuminance 26 13 38) (getRelativeLuminance 244 241 244) =
      getRelativeLuminance 26 13 38 := min_eq_left (by linarith)
  refine ⟨_, editorPair_eval, ?_, ?_⟩ <;> rw [hmax, hmin]
  · rw [le_div_iff₀ (by linarith)]
    linarith
  · rw [div_le_iff₀ (by linarith)]
    linarith

/-- C3 counterexample: for the theme's editor background #1a0d26 and
foreground #f4f1f4, the computed contrast ratio exceeds 12.9, so it is not
within 0.1 of the claimed 12.8. -/
theorem editorPair_contrast_counterexample_c3 :
    ∃ r : ℝ, calculateContrastRatio "#1a0d26" "#f4f1f4" = some r ∧ 12.9 < r := by
  obtain ⟨r, he, h1, h2⟩ := editorPair_ratio_bounds
  exact ⟨r, he, by linarith⟩

/-- C3 (amended): for the theme's editor background #1a0d26 and foreground
#f4f1f4, the contrast ratio lies in [16.5, 16.7] (about 16.59), and the
pair meets both AA and AAA for the normalText category. -/
theorem editorPair_contrast_amended_c3 :
    ∃ r : ℝ, calculateContrastRatio "#1a0d26" "#f4f1f4" = some r ∧
      16.5 ≤ r ∧ r ≤ 16.7 ∧ MeetsLevel WCAG_AA r "normalText" ∧
      MeetsLevel WCAG_AAA r "normalText" := by
  obtain ⟨r, he, h1, h2⟩ := editorPair_ratio_bounds
  refine ⟨r, he, h1, h2, ⟨4.5, rfl, ?_⟩, ⟨7.0, rfl, ?_⟩⟩
  · have hcast : ((4.5 : ℚ) : ℝ) = 4.5 := by norm_num
    rw [hcast]
    linarith
  · have hcast : ((7.0 : ℚ) : ℝ) = 7.0 := by norm_num
    rw [hcast]
    linarith

lemma simulate_eval (cstr : String) (r g b nR nG nB : Int) (m : Mat3)
    (hparse : hexToRgb cstr = some ⟨some r, some g, some b, some 1⟩)
    (hR : jsRound ((r : ℚ) * m.m00 + (g : ℚ) * m.m01 + (b : ℚ) * m.m02) = nR)
    (hG : jsRound ((r : ℚ) * m.m10 + (g : ℚ) * m.m11 + (b : ℚ) * m.m12) = nG)
    (hB : jsRound ((r : ℚ) * m.m20 + (g : ℚ) * m.m21 + (b : ℚ) * m.m22) = nB) :
    simulateColorBlindness cstr m =
      String.mk ('#' :: (toHex2 nR ++ toHex2 nG ++ toHex2 nB)) := by
  simp only [simulateColorBlindness, hparse]
  rw [hR, hG, hB]

lemma sim_orange_p : simulateColorBlindness "#ff6b35" protanopia = "#bfbe42" :=
  (simulate_eval "#ff6b35" 255 107 53 191 190 66 protanopia rfl
    (by simp only [protanopia]; unfold jsRound; rw [Int.floor_eq_iff]; norm_num)
    (by simp only [protanopia]; unfold jsRound; rw [Int.floor_eq_iff]; norm_num)
    (by simp only [protanopia]; unfold jsRound; rw [Int.floor_eq_iff]; norm_num)).trans rfl

lemma sim_purple_p : simulateColorBlindness "#8b7a9b" protanopia = "#848393" :=
  (simulate_eval "#8b7a9b" 139 122 155 132 131 147 protanopia rfl
    (by simp only [protanopia]; unfold jsRound; rw [Int.floor_eq_iff]; norm_num)
    (by simp only [protanopia]; unfold jsRound; rw [Int.floor_eq_iff]; norm_num)
    (by simp only [protanopia]; unfold jsRound; rw [Int.floor_eq_iff]; norm_num)).trans rfl

lemma sim_orange_d : simulateColorBlindness "#ff6b35" deuteranopia = "#c8d345" :=
  (simulate_eval "#ff6b35" 255 107 53 200 211 69 deuteranopia rfl
    (by simp only [deuteranopia]; unfold jsRound; rw [Int.floor_eq_iff]; norm_num)
    (by simp only [deuteranopia]; unfold jsRound; rw [Int.floor_eq_iff]; norm_num)
    (by simp only [deuteranopia]; unfold jsRound; rw [Int.floor_eq_iff]; norm_num)).trans rfl

lemma sim_purple_d : simulateColorBlindness "#8b7a9b" deuteranopia = "#858691" :=
  (simulate_eval "#8b7a9b" 139 122 155 133 134 145 deuteranopia rfl
    (by simp only [deuteranopia]; unfold jsRound; rw [Int.floor_eq_iff]; norm_num)
    (by simp only [deuteranopia]; unfold jsRound; rw [Int.floor_eq_iff]; norm_num)
    (by simp only [deuteranopia]; unfold jsRound; rw [Int.floor_eq_iff]; norm_num)).trans rfl

lemma sim_orange_t : simulateColorBlindness "#ff6b35" tritanopia = "#f84c4f" :=
  (simulate_eval "#ff6b35" 255 107 53 248 76 79 tritanopia rfl
    (by simp only [tritanopia]; unfold jsRound; rw [Int.floor_eq_iff]; norm_num)
    (by simp only [tritanopia]; unfold jsRound; rw [Int.floor_eq_iff]; norm_num)
    (by simp only [tritanopia]; unfold jsRound; rw [Int.floor_eq_iff]; norm_num)).trans rfl

lemma sim_purple_t : simulateColorBlindness "#8b7a9b" tritanopia = "#8a8d8b" :=
  (simulate_eval "#8b7a9b" 139 122 155 138 141 139 tritanopia rfl
    (by simp only [tritanopia]; unfold jsRound; rw [Int.floor_eq_iff]; norm_num)
    (by simp only [tritanopia]; unfold jsRound; rw [Int.floor_eq_iff]; norm_num)
    (by simp only [tritanopia]; unfold jsRound; rw [Int.floor_eq_iff]; norm_num)).trans rfl

/-- C8: `estimateColorBlindnessSeparation` returns the quotient of the
Euclidean RGB distance after the matrix simulation by the distance before,
and for the pair #ff6b35 / #8b7a9b it returns a well-defined nonnegative
ratio for each of protanopia, deuteranopia and tritanopia. -/
theorem colorBlindness_separation_c8 :
    (estimateColorBlindnessSeparation "#ff6b35" "#8b7a9b" protanopia =
        some (Real.sqrt 13523 / Real.sqrt 24085) ∧
      (0 : ℝ) ≤ Real.sqrt 13523 / Real.sqrt 24085) ∧
    (estimateColorBlindnessSeparation "#ff6b35" "#8b7a9b" deuteranopia =
        some (Real.sqrt 16194 / Real.sqrt 24085) ∧
      (0 : ℝ) ≤ Real.sqrt 16194 / Real.sqrt 24085) ∧
    (estimateColorBlindnessSeparation "#ff6b35" "#8b7a9b" tritanopia =
        some (Real.sqrt 19925 / Real.sqrt 24085) ∧
      (0 : ℝ) ≤ Real.sqrt 19925 / Real.sqrt 24085) := by
  have hbefore : calculateColorDifference "#ff6b35" "#8b7a9b" =
      some (Real.sqrt (((255 - 139 : Int) : ℝ) ^ 2 + ((107 - 122 : Int) : ℝ) ^ 2 +
        ((53 - 155 : Int) : ℝ) ^ 2)) := rfl
  refine ⟨⟨?_, by positivity⟩, ⟨?_, by positivity⟩, ⟨?_, by positivity⟩⟩
  · have hafter : calculateColorDifference "#bfbe42" "#848393" =
        some (Real.sqrt (((191 - 132 : Int) : ℝ) ^ 2 + ((190 - 131 : Int) : ℝ) ^ 2 +
          ((66 - 147 : Int) : ℝ) ^ 2)) := rfl
    simp only [estimateColorBlindnessSeparation, sim_orange_p, sim_purple_p, hafter, hbefore]
    norm_num
  · have hafter : calculateColorDifference "#c8d345" "#858691" =
        some (Real.sqrt (((200 - 133 : Int) : ℝ) ^ 2 + ((211 - 134 : Int) : ℝ) ^ 2 +
          ((69 - 145 : Int) : ℝ) ^ 2)) := rfl
    simp only [estimateColorBlindnessSeparation, sim_orange_d, sim_purple_d, hafter, hbefore]
    norm_num
  · have hafter : calculateColorDifference "#f84c4f" "#8a8d8b" =
        some (Real.sqrt (((248 - 138 : Int) : ℝ) ^ 2 + ((76 - 141 : Int) : ℝ) ^ 2 +
          ((79 - 139 : Int) : ℝ) ^ 2)) := rfl
    simp only [estimateColorBlindnessSeparation, sim_orange_t, sim_purple_t, hafter, hbefore]
    norm_num

/-- C10 witness: the theorem applied at the failing input "not-a-color"
against the valid colour "#f4f1f4". -/
theorem parse_failure_zero_witness_c10 :
    calculateContrastRatio "not-a-color" "#f4f1f4" = some 0 ∧
      calculateContrastRatio "#f4f1f4" "not-a-color" = some 0 :=
  parse_failure_zero_c10.1 "not-a-color" "#f4f1f4" (by decide)

end DreamPurple
